import Mathlib

/-!
Verification of the preparation pipeline of the s64da-benchmark-toolkit
(`s64da_benchmark_toolkit/prepare.py`), shallowly embedded in Lean 4.

Conventions of the embedding:
* Python machine integers are arbitrary precision, so exit codes are `Int`
  and byte counts are `Nat`; size multipliers are rationals (`ℚ`), giving
  exact arithmetic for the disk-space comparison.
* Strings are Lean `String`s; `str.split(sep)` and `os.path.basename` are
  embedded on the underlying character lists (`splitOnChar`).
* Side-effecting steps (connections, SQL statements, process spawns,
  `print`) are recorded as an ordered `Event` trace; a raised Python
  exception (`assert`, `KeyError`) is an `Option String` error component
  that aborts the remainder of the pipeline.
-/

/-- Embeds Python `str.split(sep)` for a one-character separator, on the
underlying list of characters.  As in Python, the result is never empty:
`''.split('_') == ['']`. -/
def splitOnChar (sep : Char) : List Char → List (List Char)
  | [] => [[]]
  | c :: rest =>
    let r := splitOnChar sep rest
    if c = sep then [] :: r
    else (c :: r.headD []) :: r.tail

/-- The first field of a separator-split: Python `s.split(sep)[0]`. -/
def firstField (sep : Char) (s : List Char) : List Char :=
  (splitOnChar sep s).headD []

/-- Embeds `os.path.basename`: everything after the last `/`. -/
def pyBasename (p : String) : String :=
  String.mk ((splitOnChar '/' p.data).getLastD [])

/-- `os.path.basename(self.schema_dir).split('_')[0]` from
`PrepareBenchmarkFactory._check_diskspace` (the raw database-kind
identifier, before normalization). -/
def dbTypeRaw (base : String) : String :=
  String.mk (firstField '_' base.data)

/-- The normalized database-kind identifier of `_check_diskspace`:
`db_type == "sdb"` being replaced by `"s64da"`. -/
def dbTypeOf (base : String) : String :=
  if dbTypeRaw base = "sdb" then "s64da" else dbTypeRaw base

/-- Outcome of `PrepareBenchmarkFactory._check_diskspace`.
`keyError` is the unhandled `KeyError` of `SIZING_FACTORS[db_type]` when
the kind has no entry; `skipped` is the early `return` after the
`Could not determine size factor` warning (taken when `.get` yields
`None` or a falsy `0`); `assertFailed` is the failing
`assert space_needed < free`. -/
inductive DiskCheckOutcome
  | keyError
  | skipped
  | passed
  | assertFailed
deriving DecidableEq, Repr

/-- Embeds `PrepareBenchmarkFactory._check_diskspace`.
`fs` is the class-level `SIZING_FACTORS` (kind ↦ scale factor ↦
multiplier); `free` is the free-byte count `shutil.disk_usage` reports. -/
def checkDiskspace (fs : String → Option (ℕ → Option ℚ)) (schemaDir : String)
    (scaleFactor free : ℕ) : DiskCheckOutcome :=
  match fs (dbTypeOf (pyBasename schemaDir)) with
  | none => DiskCheckOutcome.keyError
  | some tbl =>
    match tbl scaleFactor with
    | none => DiskCheckOutcome.skipped
    | some m =>
      if m = 0 then DiskCheckOutcome.skipped
      else if (scaleFactor : ℚ) * 1024 * 1024 * 1024 * m < (free : ℚ) then
        DiskCheckOutcome.passed
      else DiskCheckOutcome.assertFailed

/-- One observable side effect of the pipeline: a `print`, a scoped
database connection (`with DBConn(url)`), a SQL statement executed over a
connection, a shell task run synchronously (`_run_shell_task` called
directly), or a batch handed to `_run_tasks_parallel` together with its
`max_jobs` worker bound. -/
inductive Event
  | print (msg : String)
  | connect (url : String)
  | execSql (url : String) (sql : String)
  | shellSync (task : String)
  | parallelBatch (maxJobs : Nat) (tasks : List String)
deriving DecidableEq, Repr

/-- Embeds `PrepareBenchmarkFactory._run_shell_task`: run the shell
command, wait, and `assert p.returncode == 0`.  `exitCode` gives each
exit status of each command; a non-zero status raises the assertion error. -/
def runShellTask (exitCode : String → Int) (task : String) : Except String Unit :=
  if exitCode task = 0 then Except.ok ()
  else Except.error "Shell task did not finish with exit code 0"

/-- Embeds `PrepareBenchmarkFactory._run_tasks_parallel`: every task is
submitted to the worker pool; for each completed future whose execution
raised, the exception is printed (`Task threw an exception: ...`) and the
remaining futures are cancelled (best effort — already started tasks run
to completion).  Crucially the method itself always returns normally: the
exceptions are consumed by `future.exception()` and never re-raised.  The
returned list is the diagnostics printed, taken over the schedule in
which every submitted task was dispatched before the first failure was
observed (cancellation is best-effort, so this is an admissible
schedule); that the method never propagates a failure holds for every
schedule. -/
def runTasksParallel (exitCode : String → Int) (tasks : List String) : List String :=
  tasks.filterMap (fun t =>
    match runShellTask exitCode t with
    | Except.ok _ => none
    | Except.error e => some ("Task threw an exception: " ++ e))

/-- The components of `urlparse(self.args.dsn)` that `prepare_db` reads:
`scheme`, `netloc` and `path` (the path keeps its leading slash, as in
Python).  `urlparse` itself is Python standard library, so the parse is
supplied by the environment rather than re-modelled. -/
structure DsnUrl where
  scheme : String
  netloc : String
  path : String
deriving DecidableEq, Repr

/-- Embeds `PrepareBenchmarkFactory.prepare_db` as its ordered event
trace: connect to `scheme://netloc/postgres`, drop and recreate the
target database there, then connect to the DSN itself and execute the
full contents of `schema.sql`. -/
def prepareDb (dsn : String) (u : DsnUrl) (schemaSql : String) : List Event :=
  let dbname := u.path.drop 1
  let adminUrl := u.scheme ++ "://" ++ u.netloc ++ "/postgres"
  [ Event.connect adminUrl,
    Event.print ("Deleting " ++ dbname),
    Event.execSql adminUrl ("DROP DATABASE IF EXISTS " ++ dbname),
    Event.print ("Creating " ++ dbname),
    Event.execSql adminUrl
      ("CREATE DATABASE " ++ dbname ++ " TEMPLATE template0 ENCODING \x27UTF-8\x27"),
    Event.connect dsn,
    Event.print "Loading schema",
    Event.execSql dsn schemaSql ]

/-- The fixed file tuple of `PrepareBenchmarkFactory.add_indexes`. -/
def sqlFileNames : List String := ["primary-keys.sql", "foreign-keys.sql", "indexes.sql"]

/-- Embeds `PrepareBenchmarkFactory.add_indexes`: for each of the three
file names in order, a missing file (`files f = none`) is skipped;
otherwise a scoped connection is opened, the `Applying ...` message
printed, and the file contents executed unless they are the empty string
(Python `if sql:` — note a whitespace-only string is truthy and is
executed). -/
def addIndexes (schemaDir dsn : String) (files : String → Option String) : List Event :=
  (sqlFileNames.map (fun f =>
    match files f with
    | none => []
    | some sql =>
      [Event.connect dsn, Event.print ("Applying " ++ schemaDir ++ "/" ++ f)] ++
      (if sql = "" then [] else [Event.execSql dsn sql]))).flatten

/-- The VACUUM shell command of `vacuum_analyze`. -/
def vacuumCmd (dsn : String) : String := "psql " ++ dsn ++ " -c \"VACUUM\""

/-- The per-table ANALYZE shell command of `vacuum_analyze`. -/
def analyzeCmd (dsn table : String) : String :=
  "psql " ++ dsn ++ " -c \"ANALYZE " ++ table ++ "\""

/-- Embeds `PrepareBenchmarkFactory.vacuum_analyze`: one synchronous
`_run_shell_task` for the single VACUUM (whose assertion error, if any,
propagates and prevents the ANALYZE work), then one ANALYZE task per
entry of `TABLES` submitted as a single batch to `_run_tasks_parallel`
under the same `max_jobs` bound. -/
def vacuumAnalyze (exitCode : String → Int) (dsn : String) (tables : List String)
    (maxJobs : Nat) : List Event × Option String :=
  match runShellTask exitCode (vacuumCmd dsn) with
  | Except.error e => ([Event.shellSync (vacuumCmd dsn)], some e)
  | Except.ok _ =>
    let analyzeTasks := tables.map (analyzeCmd dsn)
    ([Event.shellSync (vacuumCmd dsn), Event.parallelBatch maxJobs analyzeTasks] ++
      (runTasksParallel exitCode analyzeTasks).map Event.print, none)

/-- What `get_ingest_tasks(table)` hands back: either an actual Python
list of shell-task strings, or an object of some other shape (which the
`isinstance(tasks, list)` assertion in `run` rejects). -/
inductive PluginAnswer
  | list (tasks : List String)
  | notList
deriving DecidableEq, Repr

/-- The task list carried by a `PluginAnswer` (empty for `notList`). -/
def answerTasks : PluginAnswer → List String
  | PluginAnswer.list ts => ts
  | PluginAnswer.notList => []

/-- Embeds the ingest-collection loop of `PrepareBenchmarkFactory.run`:
for each table in order, ask the plugin for its tasks, raise
the assertion error `Returned object is not a list` on a non-list answer,
and otherwise extend the accumulated batch. -/
def collectIngestTasks (ingest : String → PluginAnswer) :
    List String → Except String (List String)
  | [] => Except.ok []
  | t :: rest =>
    match ingest t with
    | PluginAnswer.notList => Except.error "Returned object is not a list"
    | PluginAnswer.list ts =>
      match collectIngestTasks ingest rest with
      | Except.error e => Except.error e
      | Except.ok more => Except.ok (ts ++ more)

/-- Everything `PrepareBenchmarkFactory.run` reads: the `args` fields
(`dsn`, `max_jobs`, `scale_factor`, `check_diskspace_of_directory`), the
parsed DSN, the schema directory, the class-level `SIZING_FACTORS` and
`TABLES`, the `get_ingest_tasks` of the plugin, the file system (schema SQL
files, free disk bytes) and the exit codes of the shell tasks. -/
structure Env where
  dsn : String
  dsnUrl : DsnUrl
  schemaDir : String
  schemaSql : String
  sqlFiles : String → Option String
  sizingFactors : String → Option (Nat → Option ℚ)
  scaleFactor : Nat
  freeBytes : Nat
  checkDiskspaceDir : Option String
  maxJobs : Nat
  tables : List String
  ingestTasks : String → PluginAnswer
  exitCode : String → Int

/-- `_check_diskspace` as `run` observes it: the printed events together
with the raised exception, if any (`KeyError` for a kind missing from
`SIZING_FACTORS`, the assertion error for insufficient space).  The
multi-line assumptions banner printed before the assertion is abbreviated
to its first line. -/
def checkDiskspaceEvents (fs : String → Option (Nat → Option ℚ)) (schemaDir : String)
    (scaleFactor free : Nat) (dir : String) : List Event × Option String :=
  match checkDiskspace fs schemaDir scaleFactor free with
  | DiskCheckOutcome.keyError =>
    ([], some ("KeyError: " ++ dbTypeOf (pyBasename schemaDir)))
  | DiskCheckOutcome.skipped =>
    ([Event.print "Could not determine size factor. Not checking disk space."], none)
  | DiskCheckOutcome.passed =>
    ([Event.print ("Checking available diskpace in " ++ dir)], none)
  | DiskCheckOutcome.assertFailed =>
    ([Event.print ("Checking available diskpace in " ++ dir)],
     some "Not enough disk space available")

/-- The first step of `run`: `_check_diskspace` is invoked only when
`args.check_diskspace_of_directory` is set. -/
def preflightStep (env : Env) : List Event × Option String :=
  match env.checkDiskspaceDir with
  | none => ([], none)
  | some dir =>
    checkDiskspaceEvents env.sizingFactors env.schemaDir env.scaleFactor env.freeBytes dir

/-- Embeds `PrepareBenchmarkFactory.run`: optional disk-space preflight,
`prepare_db`, the ingest-collection loop followed by one
`_run_tasks_parallel` batch, `add_indexes`, then `vacuum_analyze`.  The
result is the ordered event trace together with the first uncaught
exception (which aborts everything after it), if any.  Note that a failed
ingest task does **not** produce an error here: `_run_tasks_parallel`
swallows task exceptions (see `runTasksParallel`), so `run` proceeds to
the index and analyze stages regardless. -/
def run (env : Env) : List Event × Option String :=
  match preflightStep env with
  | (preEvents, some e) => (preEvents, some e)
  | (preEvents, none) =>
    let ev1 := preEvents ++ [Event.print "Preparing DB"] ++
      prepareDb env.dsn env.dsnUrl env.schemaSql
    match collectIngestTasks env.ingestTasks env.tables with
    | Except.error e => (ev1 ++ [Event.print "Ingesting data"], some e)
    | Except.ok ingestList =>
      let ev2 := ev1 ++ [Event.print "Ingesting data",
        Event.parallelBatch env.maxJobs ingestList] ++
        (runTasksParallel env.exitCode ingestList).map Event.print
      let ev3 := ev2 ++ [Event.print "Adding indices"] ++
        addIndexes env.schemaDir env.dsn env.sqlFiles
      let va := vacuumAnalyze env.exitCode env.dsn env.tables env.maxJobs
      (ev3 ++ [Event.print "VACUUM-ANALYZE"] ++ va.1, va.2)

/-- Concrete `SIZING_FACTORS` with no entry at all (the base-class value
`SIZING_FACTORS = {}`). -/
def fsEmptyModel : String → Option (Nat → Option ℚ) := fun _ => none

/-- Concrete `SIZING_FACTORS` registering multiplier `0` for
(`tpch`, scale factor 10). -/
def fsZeroMult : String → Option (Nat → Option ℚ) :=
  fun k => if k = "tpch" then some (fun sf => if sf = 10 then some 0 else none) else none

/-- Concrete `SIZING_FACTORS` registering multiplier `1` for
(`s64da`, scale factor 1). -/
def fsUnit : String → Option (Nat → Option ℚ) :=
  fun k => if k = "s64da" then some (fun sf => if sf = 1 then some 1 else none) else none

/-- Concrete `SIZING_FACTORS` registering multiplier `5` for
(`s64da`, scale factor 10) only. -/
def fsPresent : String → Option (Nat → Option ℚ) :=
  fun k => if k = "s64da" then some (fun sf => if sf = 10 then some 5 else none) else none

/-- Concrete `SIZING_FACTORS` registering multiplier `0` for
(`tpch`, scale factor 3). -/
def fsNine : String → Option (Nat → Option ℚ) :=
  fun k => if k = "tpch" then some (fun sf => if sf = 3 then some 0 else none) else none

/-- A schema directory holding a whitespace-only `foreign-keys.sql` and
nothing else. -/
def whitespaceFiles : String → Option String :=
  fun f => if f = "foreign-keys.sql" then some " " else none

/-- The SQL texts executed in a trace, in order. -/
def execContents (evs : List Event) : List String :=
  evs.filterMap (fun e => match e with | Event.execSql _ s => some s | _ => none)

/-- How many scoped connections a trace opens. -/
def connectCount (evs : List Event) : Nat :=
  (evs.filter (fun e => match e with | Event.connect _ => true | _ => false)).length

/-- Recognizes a synchronous shell-task event. -/
def isShellSync : Event → Bool
  | Event.shellSync _ => true
  | _ => false

/-- Modelled from the spec: the administrative connection descriptor is
the target descriptor with its path swapped to `/postgres`
(`scheme://host[:port]/dbname` becomes `scheme://host[:port]/postgres`). -/
def specAdminDescriptor (u : DsnUrl) : String :=
  u.scheme ++ "://" ++ u.netloc ++ "/postgres"

/-- A concrete run environment whose single ingest task exits non-zero
while every other shell task succeeds; the preflight directory is unset
and no optional SQL files exist. -/
def envIngestFail : Env where
  dsn := "postgresql://localhost/testdb"
  dsnUrl := { scheme := "postgresql", netloc := "localhost", path := "/testdb" }
  schemaDir := "benchmarks/tpch/schemas/sdb_x"
  schemaSql := "CREATE TABLE lineitem (x int)"
  sqlFiles := fun _ => none
  sizingFactors := fun _ => none
  scaleFactor := 10
  freeBytes := 0
  checkDiskspaceDir := none
  maxJobs := 4
  tables := ["lineitem"]
  ingestTasks := fun _ => PluginAnswer.list ["ingest lineitem"]
  exitCode := fun t => if t = "ingest lineitem" then 1 else 0

/-- `envIngestFail` with a plugin that answers a non-list object. -/
def envNotList : Env := { envIngestFail with ingestTasks := fun _ => PluginAnswer.notList }

lemma splitOnChar_ne_nil (sep : Char) (l : List Char) : splitOnChar sep l ≠ [] := by
  cases l with
  | nil => simp [splitOnChar]
  | cons c rest =>
    simp only [splitOnChar]
    split <;> simp

lemma firstField_eq_takeWhile (sep : Char) (l : List Char) :
    firstField sep l = l.takeWhile (fun c => c != sep) := by
  induction l with
  | nil => rfl
  | cons c rest ih =>
    rcases hsp : splitOnChar sep rest with _ | ⟨w, ws⟩
    · exact absurd hsp (splitOnChar_ne_nil sep rest)
    · rw [firstField, hsp] at ih
      by_cases h : c = sep
      · subst h
        simp [firstField, splitOnChar, hsp, List.takeWhile_cons]
      · simp [firstField, splitOnChar, hsp, h, List.takeWhile_cons, ← ih]

/-- Claim C10: for every schema directory name, the database-kind
identifier derived by the disk-space preflight is exactly the portion of
the base name of the directory before the first underscore (the whole base
name when it has no underscore, because `takeWhile` then keeps all of
it). -/
theorem c10_dbtype_first_underscore_field (schemaDir : String) :
    dbTypeRaw (pyBasename schemaDir) =
      String.mk ((pyBasename schemaDir).data.takeWhile (fun c => c != '_')) := by
  simp [dbTypeRaw, firstField_eq_takeWhile]

/-- Claim C8: before the size-model lookup, a derived identifier equal to
`sdb` is remapped to the canonical key `s64da`, and every other derived
identifier is used unchanged. -/
theorem c8_sdb_normalization (base : String) :
    (dbTypeRaw base = "sdb" → dbTypeOf base = "s64da") ∧
    (dbTypeRaw base ≠ "sdb" → dbTypeOf base = dbTypeRaw base) := by
  constructor <;> intro h <;> simp [dbTypeOf, h]

theorem c8_witness :
    dbTypeOf "sdb_256_demo" = "s64da" ∧ dbTypeOf "tpch_256" = "tpch" := by
  constructor
  · exact (c8_sdb_normalization "sdb_256_demo").1 (by decide)
  · have h := (c8_sdb_normalization "tpch_256").2 (by decide)
    rw [h]; decide

/-- Claim C9: a registered multiplier of `0` is falsy in Python
(`if not size_factor`), so the preflight skips the check with the
warning, exactly as for a missing entry, for every free-byte count —
space is never compared. -/
theorem c9_zero_multiplier_skipped (fs : String → Option (Nat → Option ℚ))
    (schemaDir : String) (s : Nat) (tbl : Nat → Option ℚ)
    (hreg : fs (dbTypeOf (pyBasename schemaDir)) = some tbl)
    (h0 : tbl s = some 0) :
    ∀ free dir, checkDiskspace fs schemaDir s free = DiskCheckOutcome.skipped ∧
      checkDiskspaceEvents fs schemaDir s free dir =
        ([Event.print "Could not determine size factor. Not checking disk space."], none) := by
  intro free dir
  have hc : checkDiskspace fs schemaDir s free = DiskCheckOutcome.skipped := by
    simp [checkDiskspace, hreg, h0]
  exact ⟨hc, by simp [checkDiskspaceEvents, hc]⟩

theorem c9_witness :
    checkDiskspace fsNine "schemas/tpch_x" 3 999 = DiskCheckOutcome.skipped := by
  exact (c9_zero_multiplier_skipped fsNine "schemas/tpch_x" 3
    (fun sf => if sf = 3 then some 0 else none) rfl rfl 999 "/data").1

/-- Claim C3 is false for a database kind with no `SIZING_FACTORS` entry
at all: `SIZING_FACTORS[db_type]` raises an uncaught `KeyError`, an
error rather than a skip-with-warning. -/
theorem c3_counterexample :
    checkDiskspace fsEmptyModel "schemas/tpch_sf10" 10 100 = DiskCheckOutcome.keyError ∧
    (checkDiskspaceEvents fsEmptyModel "schemas/tpch_sf10" 10 100 "/data").2 ≠ none := by
  decide

/-- Claim C3 amended: when the database kind is present but registers no
multiplier for the scale factor, the check is skipped with the warning
and is non-fatal; a kind with no entry at all instead raises a fatal
`KeyError`. -/
theorem c3_missing_entry (fs : String → Option (Nat → Option ℚ))
    (schemaDir : String) (s free : Nat) :
    (fs (dbTypeOf (pyBasename schemaDir)) = none →
      checkDiskspace fs schemaDir s free = DiskCheckOutcome.keyError ∧
      ∀ dir, (checkDiskspaceEvents fs schemaDir s free dir).2 ≠ none) ∧
    (∀ tbl, fs (dbTypeOf (pyBasename schemaDir)) = some tbl → tbl s = none →
      checkDiskspace fs schemaDir s free = DiskCheckOutcome.skipped ∧
      ∀ dir, checkDiskspaceEvents fs schemaDir s free dir =
        ([Event.print "Could not determine size factor. Not checking disk space."], none)) := by
  constructor
  · intro hnone
    have hc : checkDiskspace fs schemaDir s free = DiskCheckOutcome.keyError := by
      simp [checkDiskspace, hnone]
    exact ⟨hc, fun dir => by simp [checkDiskspaceEvents, hc]⟩
  · intro tbl htbl hmiss
    have hc : checkDiskspace fs schemaDir s free = DiskCheckOutcome.skipped := by
      simp [checkDiskspace, htbl, hmiss]
    exact ⟨hc, fun dir => by simp [checkDiskspaceEvents, hc]⟩

theorem c3_witness :
    checkDiskspace fsEmptyModel "schemas/htap_x" 1 2 = DiskCheckOutcome.keyError ∧
    checkDiskspace fsPresent "schemas/sdb_x" 7 2 = DiskCheckOutcome.skipped := by
  constructor
  · exact ((c3_missing_entry fsEmptyModel "schemas/htap_x" 1 2).1 rfl).1
  · exact ((c3_missing_entry fsPresent "schemas/sdb_x" 7 2).2
      (fun sf => if sf = 10 then some 5 else none) rfl rfl).1

/-- Claim C2 as stated is false at a registered multiplier of `0` with
zero free bytes: the space needed (`10 GiB × 0 = 0`) is ≥ the free bytes
(`0`), so the claim requires the check to fail, yet the falsy multiplier
makes the code skip it. -/
theorem c2_counterexample :
    (((10 : Nat) : ℚ) * 1024 * 1024 * 1024 * 0 ≥ ((0 : Nat) : ℚ)) ∧
    checkDiskspace fsZeroMult "schemas/tpch_x" 10 0 ≠ DiskCheckOutcome.assertFailed := by
  constructor
  · norm_num
  · decide

/-- Claim C2 amended: for every scale factor and every registered
**non-zero** multiplier `m`, the preflight fails iff
`scaleFactor × 1 GiB × m ≥ freeBytes` (in particular equality fails,
matching `assert space_needed < free`); a registered multiplier of `0`
is instead skipped. -/
theorem c2_threshold (fs : String → Option (Nat → Option ℚ))
    (schemaDir : String) (scaleFactor free : Nat) (tbl : Nat → Option ℚ) (m : ℚ)
    (hreg : fs (dbTypeOf (pyBasename schemaDir)) = some tbl)
    (hm : tbl scaleFactor = some m) (hm0 : m ≠ 0) :
    checkDiskspace fs schemaDir scaleFactor free = DiskCheckOutcome.assertFailed ↔
      (scaleFactor : ℚ) * 1024 * 1024 * 1024 * m ≥ (free : ℚ) := by
  simp only [checkDiskspace, hreg, hm]
  rw [if_neg hm0]
  split_ifs with h
  · constructor
    · intro hc; exact absurd hc (by decide)
    · intro hge; exact absurd h (not_lt.mpr hge)
  · exact ⟨fun _ => not_lt.mp h, fun _ => rfl⟩

theorem c2_witness :
    checkDiskspace fsUnit "schemas/sdb_x" 1 1073741824 = DiskCheckOutcome.assertFailed := by
  have h := c2_threshold fsUnit "schemas/sdb_x" 1 1073741824
    (fun sf => if sf = 1 then some 1 else none) 1 rfl rfl (by norm_num)
  exact h.mpr (by norm_num)

/-- Claim C5: `prepare_db` performs exactly, in order: a connection to
the administrative database (the descriptor with its path swapped to
`/postgres`), an existence-guarded DROP of the target database, a CREATE
with the UTF-8 template, a connection to the target database using the
descriptor literally, and the execution of the full `schema.sql`
contents against it. -/
theorem c5_prepare_db_steps (dsn : String) (u : DsnUrl) (schemaSql : String) :
    prepareDb dsn u schemaSql =
      [ Event.connect (specAdminDescriptor u),
        Event.print ("Deleting " ++ u.path.drop 1),
        Event.execSql (specAdminDescriptor u)
          ("DROP DATABASE IF EXISTS " ++ u.path.drop 1),
        Event.print ("Creating " ++ u.path.drop 1),
        Event.execSql (specAdminDescriptor u)
          ("CREATE DATABASE " ++ u.path.drop 1 ++ " TEMPLATE template0 ENCODING \x27UTF-8\x27"),
        Event.connect dsn,
        Event.print "Loading schema",
        Event.execSql dsn schemaSql ] := rfl

/-- Claim C4 is false for a whitespace-only file: `foreign-keys.sql`
containing a single space is truthy in Python, so its contents ARE
passed to the database for execution. -/
theorem c4_counterexample :
    Event.execSql "dsn0" " " ∈ addIndexes "sd" "dsn0" whitespaceFiles := by decide

/-- Claim C4 amended: the three optional SQL files are processed in the
fixed order primary keys, foreign keys, indexes, one scoped connection
per present file; a missing file is skipped silently and a file whose
contents are exactly the empty string is skipped without executing SQL —
but a whitespace-only (non-empty) file is executed.  The executed SQL
texts are exactly the contents of the present non-empty files, in the
fixed order. -/
theorem c4_index_stage (schemaDir dsn : String) (files : String → Option String) :
    execContents (addIndexes schemaDir dsn files) =
      sqlFileNames.filterMap (fun f =>
        (files f).bind (fun sql => if sql = "" then none else some sql)) ∧
    connectCount (addIndexes schemaDir dsn files) =
      (sqlFileNames.filter (fun f => (files f).isSome)).length := by
  rcases hp : files "primary-keys.sql" with _ | sp <;>
    rcases hf : files "foreign-keys.sql" with _ | sf2 <;>
      rcases hi : files "indexes.sql" with _ | si <;>
        simp [addIndexes, sqlFileNames, execContents, connectCount, hp, hf, hi] <;>
          split_ifs <;> simp_all

/-- Claim C7: `vacuum_analyze` first runs the single VACUUM shell task
synchronously (it is the head of the trace and the only synchronous
task); a parallel batch appears in the trace only if the VACUUM
completed with exit code 0, and that batch carries the same `max_jobs`
bound and exactly one ANALYZE task per known table. -/
theorem c7_vacuum_analyze (exitCode : String → Int) (dsn : String)
    (tables : List String) (maxJobs : Nat) :
    ((vacuumAnalyze exitCode dsn tables maxJobs).1.head? =
      some (Event.shellSync (vacuumCmd dsn))) ∧
    (((vacuumAnalyze exitCode dsn tables maxJobs).1.filter isShellSync).length = 1) ∧
    (∀ W ts, Event.parallelBatch W ts ∈ (vacuumAnalyze exitCode dsn tables maxJobs).1 →
      exitCode (vacuumCmd dsn) = 0 ∧ W = maxJobs ∧ ts = tables.map (analyzeCmd dsn)) ∧
    (tables.map (analyzeCmd dsn)).length = tables.length := by
  refine ⟨?_, ?_, ?_, by simp⟩
  · by_cases h : exitCode (vacuumCmd dsn) = 0 <;>
      simp [vacuumAnalyze, runShellTask, h]
  · by_cases h : exitCode (vacuumCmd dsn) = 0 <;>
      simp [vacuumAnalyze, runShellTask, h, isShellSync, List.filter_map,
        Function.comp]
  · intro W ts hmem
    by_cases h : exitCode (vacuumCmd dsn) = 0
    · simp [vacuumAnalyze, runShellTask, h, List.mem_append, List.mem_map,
        isShellSync] at hmem
      exact ⟨h, hmem.1, hmem.2⟩
    · simp [vacuumAnalyze, runShellTask, h] at hmem

theorem c7_witness :
    ((vacuumAnalyze (fun _ => (0 : Int)) "db" ["t1", "t2"] 2).1.head? =
      some (Event.shellSync (vacuumCmd "db"))) ∧
    ((0 : Int) = 0 ∧ 2 = 2 ∧
      ["psql db -c \"ANALYZE t1\"", "psql db -c \"ANALYZE t2\""] =
        (["t1", "t2"]).map (analyzeCmd "db")) := by
  have h := c7_vacuum_analyze (fun _ => (0 : Int)) "db" ["t1", "t2"] 2
  exact ⟨h.1, h.2.2.1 2 ["psql db -c \"ANALYZE t1\"", "psql db -c \"ANALYZE t2\""]
    (by decide)⟩

lemma collectIngestTasks_ok (ingest : String → PluginAnswer) (tables : List String)
    (h : ∀ t ∈ tables, ingest t ≠ PluginAnswer.notList) :
    collectIngestTasks ingest tables =
      Except.ok ((tables.map (fun t => answerTasks (ingest t))).flatten) := by
  induction tables with
  | nil => rfl
  | cons t rest ih =>
    have ht := h t (List.mem_cons_self t rest)
    have hr : ∀ x ∈ rest, ingest x ≠ PluginAnswer.notList :=
      fun x hx => h x (List.mem_cons_of_mem t hx)
    cases hcase : ingest t with
    | notList => exact absurd hcase ht
    | list ts =>
      simp [collectIngestTasks, hcase, ih hr, answerTasks]

lemma collectIngestTasks_err (ingest : String → PluginAnswer) (tables : List String)
    (h : ∃ t ∈ tables, ingest t = PluginAnswer.notList) :
    collectIngestTasks ingest tables = Except.error "Returned object is not a list" := by
  induction tables with
  | nil => simp at h
  | cons t rest ih =>
    cases hcase : ingest t with
    | notList => simp [collectIngestTasks, hcase]
    | list ts =>
      have hr : ∃ x ∈ rest, ingest x = PluginAnswer.notList := by
        rcases h with ⟨x, hx, hlx⟩
        rcases List.mem_cons.mp hx with rfl | hx'
        · rw [hcase] at hlx
          exact absurd hlx (by simp)
        · exact ⟨x, hx', hlx⟩
      simp [collectIngestTasks, hcase, ih hr]

lemma parallelBatch_notMem_diskEvents (fs : String → Option (Nat → Option ℚ))
    (schemaDir : String) (s free : Nat) (dir : String) (W : Nat) (ts : List String) :
    Event.parallelBatch W ts ∉ (checkDiskspaceEvents fs schemaDir s free dir).1 := by
  cases h : checkDiskspace fs schemaDir s free <;> simp [checkDiskspaceEvents, h]

lemma parallelBatch_notMem_preflight (env : Env) (W : Nat) (ts : List String) :
    Event.parallelBatch W ts ∉ (preflightStep env).1 := by
  cases h : env.checkDiskspaceDir with
  | none => simp [preflightStep, h]
  | some dir =>
    simp only [preflightStep, h]
    exact parallelBatch_notMem_diskEvents env.sizingFactors env.schemaDir
      env.scaleFactor env.freeBytes dir W ts

lemma parallelBatch_notMem_prepareDb (dsn : String) (u : DsnUrl) (schemaSql : String)
    (W : Nat) (ts : List String) :
    Event.parallelBatch W ts ∉ prepareDb dsn u schemaSql := by
  simp [prepareDb]

/-- Claim C6: (a) when the plugin answer for every table is a list, the
ingest-collection loop succeeds and yields the flattening of the
per-table task lists, and (when the preflight raises nothing) that flattened list
is handed to the parallel runner as one single batch; (b) a non-list
answer for any table makes the run raise, and no parallel batch at all
is dispatched (the assertion fires before `_run_tasks_parallel`). -/
theorem c6_ingest_contract (env : Env) :
    ((∀ t ∈ env.tables, env.ingestTasks t ≠ PluginAnswer.notList) →
      collectIngestTasks env.ingestTasks env.tables =
        Except.ok ((env.tables.map (fun t => answerTasks (env.ingestTasks t))).flatten) ∧
      ((preflightStep env).2 = none →
        Event.parallelBatch env.maxJobs
          ((env.tables.map (fun t => answerTasks (env.ingestTasks t))).flatten)
          ∈ (run env).1)) ∧
    ((∃ t ∈ env.tables, env.ingestTasks t = PluginAnswer.notList) →
      (run env).2 ≠ none ∧ ∀ W ts, Event.parallelBatch W ts ∉ (run env).1) := by
  constructor
  · intro hall
    have hcol := collectIngestTasks_ok env.ingestTasks env.tables hall
    refine ⟨hcol, ?_⟩
    intro hnone
    rcases hpre : preflightStep env with ⟨pevs, perr⟩
    rw [hpre] at hnone
    simp only at hnone
    subst hnone
    simp [run, hpre, hcol]
  · intro hex
    have hcol := collectIngestTasks_err env.ingestTasks env.tables hex
    rcases hpre : preflightStep env with ⟨pevs, perr⟩
    cases perr with
    | some e =>
      constructor
      · simp [run, hpre]
      · intro W ts
        have h1 := parallelBatch_notMem_preflight env W ts
        rw [hpre] at h1
        simp [run, hpre]
        exact h1
    | none =>
      constructor
      · simp [run, hpre, hcol]
      · intro W ts
        have h1 := parallelBatch_notMem_preflight env W ts
        rw [hpre] at h1
        have h2 := parallelBatch_notMem_prepareDb env.dsn env.dsnUrl env.schemaSql W ts
        simp [run, hpre, hcol, List.mem_append]
        exact ⟨h1, h2⟩

theorem c6_witness :
    collectIngestTasks envIngestFail.ingestTasks envIngestFail.tables =
      Except.ok ["ingest lineitem"] ∧
    (run envNotList).2 ≠ none := by
  constructor
  · exact ((c6_ingest_contract envIngestFail).1 (by decide)).1
  · exact ((c6_ingest_contract envNotList).2 ⟨"lineitem", by decide, rfl⟩).1

/-- Claim C1 is violated by the code: in `envIngestFail` the single
ingest task exits non-zero, `_run_tasks_parallel` prints the exception
and cancels pending futures but returns normally, so `run` raises
nothing (`.2 = none`), prints `Adding indices` and `VACUUM-ANALYZE`, and
even dispatches the Analyze batch — the Index and Analyze stages run
after the ingest failure and the batch outcome is never surfaced as
failed. -/
theorem c1_failure_not_surfaced :
    (run envIngestFail).2 = none ∧
    Event.print "Task threw an exception: Shell task did not finish with exit code 0"
      ∈ (run envIngestFail).1 ∧
    Event.print "Adding indices" ∈ (run envIngestFail).1 ∧
    Event.print "VACUUM-ANALYZE" ∈ (run envIngestFail).1 ∧
    Event.parallelBatch 4 ["psql postgresql://localhost/testdb -c \"ANALYZE lineitem\""]
      ∈ (run envIngestFail).1 := by decide
